import Mathlib

/-!
Shallow embedding of `src/server.js` of the sales-bell backend.

The server keeps two in-memory JavaScript `Map`s (`connections`:
deviceId → WebSocket, `subscriptions`: deviceId → Set of slugs) and a
SQL store with a `webhooks` table (slug UNIQUE → device_id) and a
`notifications` table.  We embed the maps as association lists keyed by
`String`, the store as lists of rows plus an autoincrement counter and a
clock (`CURRENT_TIMESTAMP` is modelled as a `Nat`), and each fallible
`db.execute` call site takes an explicit boolean saying whether that
call throws, so the `try`/`catch` paths of the source are all
reachable in the model.
-/

namespace SalesBell

/-- JavaScript `x || d` for an optional string (`undefined` is `none`;
the empty string is falsy). -/
def jsOrStr (x : Option String) (d : String) : String :=
  match x with
  | none => d
  | some v => if v = "" then d else v

/-- JavaScript `x || null` for an optional string: a falsy value
(absent or empty) becomes `null`. -/
def jsOrNull (x : Option String) : Option String :=
  match x with
  | none => none
  | some v => if v = "" then none else some v

/-- JavaScript `x || d` for an optional number (`0` is falsy). -/
def jsOrNat (x : Option Nat) (d : Nat) : Nat :=
  match x with
  | none => d
  | some v => if v = 0 then d else v

/-- JavaScript `Map.get`: first binding of the key in the association list. -/
def mapGet {α : Type} (m : List (String × α)) (k : String) : Option α :=
  (m.find? (fun p => p.1 == k)).map Prod.snd

/-- JavaScript `Map.set`: overwrite the binding if present, otherwise append. -/
def mapSet {α : Type} (m : List (String × α)) (k : String) (v : α) :
    List (String × α) :=
  if m.any (fun p => p.1 == k) then
    m.map (fun p => if p.1 == k then (k, v) else p)
  else
    m ++ [(k, v)]

/-- JavaScript `Map.delete`: drop every binding of the key. -/
def mapDelete {α : Type} (m : List (String × α)) (k : String) :
    List (String × α) :=
  m.filter (fun p => p.1 != k)

/-- A row of the `webhooks` table (`slug` is UNIQUE, mapped to the
owning `device_id`). -/
structure WebhookRow where
  slug : String
  device_id : String
  created_at : Nat
  last_used : Nat
deriving DecidableEq

/-- A row of the `notifications` table. -/
structure NotificationRow where
  id : Nat
  webhook_slug : String
  title : Option String
  subtitle : Option String
  message : String
  icon : Option String
  priority : Nat
  sound : Option String
  image : Option String
  on_click_link : Option String
  created_at : Nat
deriving DecidableEq

/-- The SQL store: both tables, the autoincrement counter for
`notifications.id`, and the current value of `CURRENT_TIMESTAMP`. -/
structure Db where
  webhooks : List WebhookRow
  notifications : List NotificationRow
  nextNotifId : Nat
  now : Nat
deriving DecidableEq

/-- The query `SELECT device_id FROM webhooks WHERE slug = ?` (first row;
`slug` is UNIQUE so at most one row matches). -/
def ownerOf (db : Db) (slug : String) : Option String :=
  (db.webhooks.find? (fun w => w.slug == slug)).map WebhookRow.device_id

/-- A WebSocket as the server sees it: the device id stamped on it, the
heartbeat flag `isAlive`, and `readyState`. -/
structure Ws where
  deviceId : String
  isAlive : Bool
  readyState : Nat
deriving DecidableEq

/-- The constant `WebSocket.OPEN`. -/
def wsOPEN : Nat := 1

/-- The whole server state: the store plus the two in-memory maps.
The values of `connections` double as `wss.clients` (one live socket
per device id). -/
structure Server where
  db : Db
  connections : List (String × Ws)
  subscriptions : List (String × List String)
deriving DecidableEq

/-- Outcome record `{ success, error }` returned by the async
handlers. -/
structure Outcome where
  success : Bool
  error : Option String
deriving DecidableEq

/-- The check `slug.length < 3 || slug.length > 50` together with the `!slug`
falsiness guard of the source. -/
def slugLengthBad (slug : String) : Bool :=
  slug == "" || slug.length < 3 || slug.length > 50

/-- One character of the class `[a-z0-9_-]`. -/
def slugCharOk (c : Char) : Bool :=
  (('a' ≤ c && c ≤ 'z') || ('0' ≤ c && c ≤ '9') || c == '_' || c == '-')

/-- The regex test `/^[a-z0-9_-]+$/.test(slug)`: at least one
character, all from the class. -/
def slugCharsetOk (slug : String) : Bool :=
  slug.length ≥ 1 && slug.toList.all slugCharOk

/-- Which `db.execute` calls of `registerWebhook` throw. -/
structure RegFx where
  selectFails : Bool
  insertFails : Bool
deriving DecidableEq

/-- Embeds `registerWebhook(slug, deviceId)`: validate the slug, look up the
current owner, and either accept an idempotent re-claim, reject a
foreign claim, or insert the new ownership row and add the slug to the
device's in-memory subscription set. -/
def registerWebhook (s : Server) (fx : RegFx) (slug deviceId : String) :
    Outcome × Server :=
  if slugLengthBad slug then
    ({ success := false, error := some "Slug must be 3-50 characters" }, s)
  else if !slugCharsetOk slug then
    ({ success := false, error := some "Invalid slug format" }, s)
  else if fx.selectFails then
    ({ success := false, error := some "db error" }, s)
  else
    match ownerOf s.db slug with
    | some owner =>
        if owner == deviceId then
          ({ success := true, error := none }, s)
        else
          ({ success := false, error := some "Slug already taken" }, s)
    | none =>
        if fx.insertFails then
          ({ success := false, error := some "db error" }, s)
        else
          let db' := { s.db with
            webhooks := s.db.webhooks ++
              [{ slug := slug, device_id := deviceId,
                 created_at := s.db.now, last_used := s.db.now }] }
          let cur := (mapGet s.subscriptions deviceId).getD []
          let subs' := mapSet s.subscriptions deviceId
            (if cur.contains slug then cur else cur ++ [slug])
          ({ success := true, error := none },
           { s with db := db', subscriptions := subs' })

/-- Descending `created_at` order, the sort key of
`ORDER BY created_at DESC`. -/
def createdGe (a b : NotificationRow) : Prop :=
  b.created_at ≤ a.created_at

instance : DecidableRel createdGe := fun a b =>
  Nat.decLe b.created_at a.created_at

instance : IsTotal NotificationRow createdGe :=
  ⟨fun a b => Nat.le_total b.created_at a.created_at⟩

instance : IsTrans NotificationRow createdGe :=
  ⟨fun _ _ _ h1 h2 => Nat.le_trans h2 h1⟩

/-- Embeds `getNotifications(slug, limit)`:
`SELECT ... FROM notifications WHERE webhook_slug = ?
ORDER BY created_at DESC LIMIT ?`. -/
def getNotifications (db : Db) (slug : String) (limit : Nat) :
    List NotificationRow :=
  (List.insertionSort createdGe
    (db.notifications.filter (fun n => n.webhook_slug == slug))).take limit

/-- The `data` argument of `sendNotification`: the JSON body fields,
each possibly absent (`none` models JavaScript `undefined`). -/
structure NotificationData where
  title : Option String
  subtitle : Option String
  message : Option String
  icon : Option String
  priority : Option Nat
  sound : Option String
  image : Option String
  onClickLink : Option String
deriving DecidableEq

/-- The row `sendNotification` inserts into `notifications`, with the
source's `||` defaults applied (`id` and `created_at` come from the
autoincrement counter and `CURRENT_TIMESTAMP`). -/
def mkNotificationRow (db : Db) (slug : String) (data : NotificationData) :
    NotificationRow :=
  { id := db.nextNotifId
    webhook_slug := slug
    title := jsOrNull data.title
    subtitle := jsOrNull data.subtitle
    message := jsOrStr data.message "New notification"
    icon := jsOrNull data.icon
    priority := jsOrNat data.priority 3
    sound := jsOrNull data.sound
    image := jsOrNull data.image
    on_click_link := jsOrNull data.onClickLink
    created_at := db.now }

/-- The JSON frame `ws.send` writes for a notification (the wall-clock
ISO timestamp field is not modelled). -/
structure SentPayload where
  deviceId : String
  slug : String
  title : Option String
  subtitle : Option String
  message : String
  icon : Option String
  priority : Nat
  sound : String
  image : Option String
  onClickLink : Option String
deriving DecidableEq

/-- The lookup `connections.get(deviceId)` followed by the guard
`ws && ws.readyState === WebSocket.OPEN`. -/
def liveEndpoint (s : Server) (deviceId : String) : Option Ws :=
  match mapGet s.connections deviceId with
  | some ws => if ws.readyState = wsOPEN then some ws else none
  | none => none

/-- Which `db.execute` calls of `sendNotification` throw. -/
structure SendFx where
  selectOwnerFails : Bool
  insertNotifFails : Bool
  updateLastUsedFails : Bool
deriving DecidableEq

/-- Externally observable calls a `sendNotification` run makes:
`ws.send` frames, and invocations of an external push-forward
collaborator.  The source contains no push-forward call site (its
offline branch only logs "notification saved for later"), so no branch
of the embedding ever extends `forwards`. -/
structure SendEffects where
  sends : List SentPayload
  forwards : List SentPayload
deriving DecidableEq

/-- Full result of a `sendNotification` run. -/
structure SendResult where
  outcome : Outcome
  state : Server
  effects : SendEffects
deriving DecidableEq

/-- The `INSERT INTO notifications (...) VALUES (...)` step. -/
def insertNotification (db : Db) (slug : String) (data : NotificationData) :
    Db :=
  { db with
    notifications := db.notifications ++ [mkNotificationRow db slug data]
    nextNotifId := db.nextNotifId + 1 }

/-- The `UPDATE webhooks SET last_used = CURRENT_TIMESTAMP WHERE
slug = ?` step. -/
def touchLastUsed (db : Db) (slug : String) : Db :=
  { db with
    webhooks := db.webhooks.map (fun w =>
      if w.slug == slug then { w with last_used := db.now } else w) }

/-- The JSON frame built for `ws.send` (defaults applied as in the
source). -/
def mkPayload (deviceId slug : String) (data : NotificationData) :
    SentPayload :=
  { deviceId := deviceId
    slug := slug
    title := jsOrNull data.title
    subtitle := jsOrNull data.subtitle
    message := jsOrStr data.message "New notification"
    icon := jsOrNull data.icon
    priority := jsOrNat data.priority 3
    sound := jsOrStr data.sound "default"
    image := jsOrNull data.image
    onClickLink := jsOrNull data.onClickLink }

/-- The final "Send to device if connected" block of
`sendNotification`, run on the state `s2` left after both store
writes: deliver when the owner's socket is open, otherwise only log
that the device is offline. -/
def sendLive (s2 : Server) (deviceId slug : String)
    (data : NotificationData) : SendResult :=
  match liveEndpoint s2 deviceId with
  | some _ =>
      { outcome := { success := true, error := none }
        state := s2
        effects := { sends := [mkPayload deviceId slug data], forwards := [] } }
  | none =>
      { outcome := { success := true, error := none }
        state := s2
        effects := { sends := [], forwards := [] } }

/-- Embeds `sendNotification(slug, data)`: resolve the owning device from the
store, insert the notification row, touch `last_used`, then deliver
over the live socket when one is open; any thrown `db.execute` error is
caught and returned as `{ success: false, error }`. -/
def sendNotification (s : Server) (fx : SendFx) (slug : String)
    (data : NotificationData) : SendResult :=
  if fx.selectOwnerFails then
    { outcome := { success := false, error := some "db error" },
      state := s, effects := { sends := [], forwards := [] } }
  else
    match ownerOf s.db slug with
    | none =>
        { outcome := { success := false, error := some "Webhook not found" },
          state := s, effects := { sends := [], forwards := [] } }
    | some deviceId =>
        if fx.insertNotifFails then
          { outcome := { success := false, error := some "db error" },
            state := s, effects := { sends := [], forwards := [] } }
        else if fx.updateLastUsedFails then
          { outcome := { success := false, error := some "db error" },
            state := { s with db := insertNotification s.db slug data },
            effects := { sends := [], forwards := [] } }
        else
          sendLive
            { s with db := touchLastUsed (insertNotification s.db slug data) slug }
            deviceId slug data

/-- HTTP status of `app.post('/w/:slug')` for a `sendNotification`
outcome: `200` on success, else
`result.error === 'Webhook not found' ? 404 : 503`. -/
def postWStatus (o : Outcome) : Nat :=
  if o.success then 200
  else if o.error == some "Webhook not found" then 404
  else 503

/-- Embeds `loadDeviceWebhooks(deviceId)`:
`SELECT slug FROM webhooks WHERE device_id = ?`. -/
def loadDeviceWebhooks (db : Db) (deviceId : String) : List String :=
  (db.webhooks.filter (fun w => w.device_id == deviceId)).map WebhookRow.slug

/-- The update `connections.set(deviceId, ws)` with a fresh open socket,
`ws.isAlive = true`. -/
def connectConns (s : Server) (deviceId : String) : List (String × Ws) :=
  mapSet s.connections deviceId
    { deviceId := deviceId, isAlive := true, readyState := wsOPEN }

/-- The `wss.on('connection')` handler, including the completion of its
async `loadDeviceWebhooks(...).then(...)` callback: register the fresh
socket under the device id and, when the device owns slugs, record them
as its subscription set (`subscriptions.set` runs only when the loaded
list is non-empty). -/
def connect (s : Server) (deviceId : String) : Server :=
  if (loadDeviceWebhooks s.db deviceId).isEmpty then
    { s with connections := connectConns s deviceId }
  else
    { s with
      connections := connectConns s deviceId
      subscriptions := mapSet s.subscriptions deviceId
        (loadDeviceWebhooks s.db deviceId) }

/-- The `ws.on('close')` handler (also run after `ws.terminate()`):
`connections.delete(deviceId); subscriptions.delete(deviceId)`. -/
def disconnect (s : Server) (deviceId : String) : Server :=
  { s with
    connections := mapDelete s.connections deviceId
    subscriptions := mapDelete s.subscriptions deviceId }

/-- The `ws.on('pong')` handler: `ws.isAlive = true`. -/
def pongEvent (s : Server) (deviceId : String) : Server :=
  { s with
    connections := s.connections.map (fun p =>
      if p.1 == deviceId then (p.1, { p.2 with isAlive := true }) else p) }

/-- The device ids whose socket is still `!isAlive` when a tick fires:
these are terminated by the tick. -/
def evictedKeys (conns : List (String × Ws)) : List String :=
  (conns.filter (fun p => !p.2.isAlive)).map Prod.fst

/-- One tick of the 30-second heartbeat interval: every client still
`!isAlive` from the previous tick is terminated (its close handler then
deletes it from `connections` and `subscriptions`); every other client
is probed (`ping()`) after `isAlive` is cleared. -/
def heartbeatTick (s : Server) : Server :=
  { s with
    connections := (s.connections.filter (fun p => p.2.isAlive)).map
      (fun p => (p.1, { p.2 with isAlive := false }))
    subscriptions := s.subscriptions.filter
      (fun q => !((evictedKeys s.connections).contains q.1)) }

/-! ### Concrete fixtures used to instantiate the theorems -/

/-- No `db.execute` call of `registerWebhook` throws. -/
def fxRegOk : RegFx := { selectFails := false, insertFails := false }

/-- No `db.execute` call of `sendNotification` throws. -/
def fxSendOk : SendFx :=
  { selectOwnerFails := false, insertNotifFails := false,
    updateLastUsedFails := false }

/-- The `INSERT INTO notifications` call throws. -/
def fxSendInsertFail : SendFx :=
  { selectOwnerFails := false, insertNotifFails := true,
    updateLastUsedFails := false }

/-- A store in which `"sale-alerts"` is owned by device `"dev-a"`. -/
def demoDb : Db :=
  { webhooks := [{ slug := "sale-alerts", device_id := "dev-a",
                   created_at := 0, last_used := 0 }]
    notifications := []
    nextNotifId := 1
    now := 10 }

/-- The store `demoDb` with no live connection. -/
def demoOffline : Server :=
  { db := demoDb, connections := [], subscriptions := [] }

/-- The store `demoDb` with `"dev-a"` connected over an open socket. -/
def demoOnline : Server :=
  { db := demoDb
    connections := [("dev-a",
      { deviceId := "dev-a", isAlive := true, readyState := wsOPEN })]
    subscriptions := [("dev-a", ["sale-alerts"])] }

/-- A concrete publish body. -/
def demoData : NotificationData :=
  { title := some "Sale!", subtitle := none, message := some "$50 sale",
    icon := none, priority := some 5, sound := none, image := none,
    onClickLink := none }

/-! ### Channel ownership (claims C4, C5, C6) -/

/-- C4: a claim of a slug already owned by a different identity returns
the "Slug already taken" rejection and leaves the server state — store
and in-memory maps — exactly as it was. -/
theorem registerWebhook_foreign_claim_rejected (s : Server) (fx : RegFx)
    (slug a b : String)
    (hlen : slugLengthBad slug = false) (hfmt : slugCharsetOk slug = true)
    (hsel : fx.selectFails = false)
    (hown : ownerOf s.db slug = some a) (hne : a ≠ b) :
    registerWebhook s fx slug b =
      ({ success := false, error := some "Slug already taken" }, s) := by
  simp [registerWebhook, hlen, hfmt, hsel, hown, hne]

/-- Witness for C4: `"dev-b"` claiming `"sale-alerts"`, owned by
`"dev-a"`, is rejected and the state is returned unchanged. -/
theorem registerWebhook_foreign_claim_rejected_witness :
    registerWebhook demoOffline fxRegOk "sale-alerts" "dev-b" =
      ({ success := false, error := some "Slug already taken" }, demoOffline) :=
  registerWebhook_foreign_claim_rejected demoOffline fxRegOk
    "sale-alerts" "dev-a" "dev-b" (by decide) (by decide) rfl (by decide)
    (by decide)

/-- C5: a second claim of an owned slug by the same identity succeeds
and returns the server state unchanged (idempotent re-claim). -/
theorem registerWebhook_reclaim_idempotent (s : Server) (fx : RegFx)
    (slug a : String)
    (hlen : slugLengthBad slug = false) (hfmt : slugCharsetOk slug = true)
    (hsel : fx.selectFails = false)
    (hown : ownerOf s.db slug = some a) :
    registerWebhook s fx slug a = ({ success := true, error := none }, s) := by
  simp [registerWebhook, hlen, hfmt, hsel, hown]

/-- Witness for C5: `"dev-a"` re-claiming its own `"sale-alerts"`
succeeds with no change of state. -/
theorem registerWebhook_reclaim_idempotent_witness :
    registerWebhook demoOffline fxRegOk "sale-alerts" "dev-a" =
      ({ success := true, error := none }, demoOffline) :=
  registerWebhook_reclaim_idempotent demoOffline fxRegOk
    "sale-alerts" "dev-a" (by decide) (by decide) rfl (by decide)

/-- C6: a slug that is too short, too long, or holds a character
outside `[a-z0-9_-]` is rejected with one of the two validation errors
and the state is unchanged; the conclusion holds for every `fx`,
including a throwing `SELECT`, because validation runs before the
ownership lookup ever touches the store. -/
theorem registerWebhook_invalid_slug_no_mutation (s : Server) (fx : RegFx)
    (slug d : String)
    (h : slug.length < 3 ∨ 50 < slug.length ∨
      slug.toList.all slugCharOk = false) :
    (registerWebhook s fx slug d).2 = s ∧
      ((registerWebhook s fx slug d).1 =
          { success := false, error := some "Slug must be 3-50 characters" } ∨
        (registerWebhook s fx slug d).1 =
          { success := false, error := some "Invalid slug format" }) := by
  by_cases hl : slugLengthBad slug = true
  · simp [registerWebhook, hl]
  · have hl' : slugLengthBad slug = false := by
      simpa using hl
    have hfmt : slugCharsetOk slug = false := by
      rcases h with h | h | h
      · exfalso
        have := hl'
        simp [slugLengthBad] at this
        omega
      · exfalso
        have := hl'
        simp [slugLengthBad] at this
        omega
      · simp only [slugCharsetOk, Bool.and_eq_false_iff]
        exact Or.inr h
    simp [registerWebhook, hl', hfmt]

/-- Witness for C6: the slug `"AB"` (too short, uppercase) is rejected
with a validation error and the state is unchanged. -/
theorem registerWebhook_invalid_slug_no_mutation_witness :
    (registerWebhook demoOffline fxRegOk "AB" "dev-b").2 = demoOffline ∧
      ((registerWebhook demoOffline fxRegOk "AB" "dev-b").1 =
          { success := false, error := some "Slug must be 3-50 characters" } ∨
        (registerWebhook demoOffline fxRegOk "AB" "dev-b").1 =
          { success := false, error := some "Invalid slug format" }) :=
  registerWebhook_invalid_slug_no_mutation demoOffline fxRegOk "AB" "dev-b"
    (Or.inl (by decide))

/-! ### Message read-back (claim C7) -/

/-- An earlier notification row for slug `"s"` (`created_at = 1`). -/
def rowEarly : NotificationRow :=
  { id := 1, webhook_slug := "s", title := none, subtitle := none,
    message := "first", icon := none, priority := 3, sound := none,
    image := none, on_click_link := none, created_at := 1 }

/-- A later notification row for slug `"s"` (`created_at = 2`). -/
def rowLate : NotificationRow :=
  { id := 2, webhook_slug := "s", title := none, subtitle := none,
    message := "second", icon := none, priority := 3, sound := none,
    image := none, on_click_link := none, created_at := 2 }

/-- A store holding the two rows for `"s"` in creation order. -/
def demoNotifDb : Db :=
  { webhooks := [{ slug := "s", device_id := "d",
                   created_at := 0, last_used := 0 }]
    notifications := [rowEarly, rowLate]
    nextNotifId := 3
    now := 5 }

/-- C7 counterexample: on a store with two messages (creation times 1
and 2), the read-back is NOT in ascending creation order (the code
sorts `created_at DESC`), and with the caller-supplied limit `1` it
returns fewer rows than are stored even though far fewer than 1000
are stored — so the cap is the `limit` argument, not a fixed 1000. -/
theorem getNotifications_claim_counterexample :
    ¬ List.Sorted (fun a b => a.created_at ≤ b.created_at)
        (getNotifications demoNotifDb "s" 50) ∧
      (getNotifications demoNotifDb "s" 1).length <
        (demoNotifDb.notifications.filter
          (fun n => n.webhook_slug == "s")).length := by
  constructor
  · decide
  · decide

/-- C7 (amended): the read-back returns the slug's stored messages in
DESCENDING creation order, capped at the caller-supplied `limit` (the
WebSocket read path defaults it to 50, the webhook-info route passes
20) — not ascending and not a fixed 1000. -/
theorem getNotifications_sorted_desc_capped (db : Db) (slug : String)
    (limit : Nat) :
    List.Sorted createdGe (getNotifications db slug limit) ∧
      (getNotifications db slug limit).length ≤ limit := by
  constructor
  · exact List.Pairwise.sublist (List.take_sublist _ _)
      (List.sorted_insertionSort createdGe _)
  · exact List.length_take_le limit
      (List.insertionSort createdGe
        (db.notifications.filter (fun n => n.webhook_slug == slug)))

/-! ### The publish path (claims C1, C2, C3, C10) -/

/-- No run of `sendNotification` ever invokes a push-forward
collaborator: the source's offline branch only logs. -/
theorem sendNotification_forwards_nil (s : Server) (fx : SendFx)
    (slug : String) (data : NotificationData) :
    (sendNotification s fx slug data).effects.forwards = [] := by
  unfold sendNotification
  split
  · rfl
  · split
    · rfl
    · split
      · rfl
      · split
        · rfl
        · unfold sendLive
          split <;> rfl

/-- Every run of `sendNotification` either sent nothing over a socket
or has the freshly inserted row appended to its final store. -/
theorem sendNotification_sends_persisted (s : Server) (fx : SendFx)
    (slug : String) (data : NotificationData) :
    (sendNotification s fx slug data).effects.sends = [] ∨
      (sendNotification s fx slug data).state.db.notifications =
        s.db.notifications ++ [mkNotificationRow s.db slug data] := by
  unfold sendNotification
  split
  · exact Or.inl rfl
  · split
    · exact Or.inl rfl
    · split
      · exact Or.inl rfl
      · split
        · exact Or.inl rfl
        · unfold sendLive
          split
          · exact Or.inr rfl
          · exact Or.inr rfl

/-- Changing only the store leaves the live-endpoint lookup
unchanged: it reads the `connections` map alone. -/
theorem liveEndpoint_update_db (s : Server) (db' : Db) (d : String) :
    liveEndpoint { s with db := db' } d = liveEndpoint s d := rfl

/-- C1 counterexample: publishing `"sale-alerts"` while its owner
`"dev-a"` has no live connection reaches zero live endpoints, yet the
push-forward collaborator is invoked zero times, not exactly once. -/
theorem sendNotification_offline_counterexample :
    (sendNotification demoOffline fxSendOk "sale-alerts" demoData).effects.sends
        = [] ∧
      ¬ (sendNotification demoOffline fxSendOk "sale-alerts"
          demoData).effects.forwards.length = 1 := by
  constructor
  · decide
  · decide

/-- C1 (amended): when a publish reaches zero live endpoints (the
owner resolves but has no open socket), the call still succeeds and
the notification row is still inserted into the store, but NO
push-forward collaborator is invoked — the source has no push-forward
call site and merely logs that the device is offline. -/
theorem sendNotification_offline_persists_no_forward (s : Server)
    (fx : SendFx) (slug : String) (data : NotificationData) (d : String)
    (h1 : fx.selectOwnerFails = false) (h2 : fx.insertNotifFails = false)
    (h3 : fx.updateLastUsedFails = false)
    (hown : ownerOf s.db slug = some d)
    (hlive : liveEndpoint s d = none) :
    (sendNotification s fx slug data).outcome.success = true ∧
      (sendNotification s fx slug data).effects.sends = [] ∧
      (sendNotification s fx slug data).effects.forwards = [] ∧
      (sendNotification s fx slug data).state.db.notifications =
        s.db.notifications ++ [mkNotificationRow s.db slug data] := by
  simp [sendNotification, sendLive, insertNotification, touchLastUsed, h1, h2,
    h3, hown, liveEndpoint_update_db, hlive]

/-- Witness for C1 (amended): the offline publish of `demoData` to
`"sale-alerts"` succeeds, sends nothing, forwards nothing, and appends
the row to the store. -/
theorem sendNotification_offline_persists_no_forward_witness :
    (sendNotification demoOffline fxSendOk "sale-alerts"
        demoData).outcome.success = true ∧
      (sendNotification demoOffline fxSendOk "sale-alerts"
        demoData).effects.sends = [] ∧
      (sendNotification demoOffline fxSendOk "sale-alerts"
        demoData).effects.forwards = [] ∧
      (sendNotification demoOffline fxSendOk "sale-alerts"
        demoData).state.db.notifications =
        demoOffline.db.notifications ++
          [mkNotificationRow demoOffline.db "sale-alerts" demoData] :=
  sendNotification_offline_persists_no_forward demoOffline fxSendOk
    "sale-alerts" demoData "dev-a" rfl rfl rfl (by decide) (by decide)

/-- C2: live delivery and push-forward are mutually exclusive in every
publish call — at least one of the two effect lists is empty (in this
source the forward list always is). -/
theorem sendNotification_live_forward_exclusive (s : Server) (fx : SendFx)
    (slug : String) (data : NotificationData) :
    (sendNotification s fx slug data).effects.forwards = [] ∨
      (sendNotification s fx slug data).effects.sends = [] :=
  Or.inl (sendNotification_forwards_nil s fx slug data)

/-- C3: the message is persisted before any delivery: a throwing
`INSERT INTO notifications` makes the publish fail with no socket send
attempted, and conversely any publish that did send has the inserted
row sitting in its final store. -/
theorem sendNotification_persist_before_delivery (s : Server) (fx : SendFx)
    (slug : String) (data : NotificationData) :
    (fx.insertNotifFails = true →
      (sendNotification s fx slug data).outcome.success = false ∧
        (sendNotification s fx slug data).effects.sends = []) ∧
    ((sendNotification s fx slug data).effects.sends ≠ [] →
      (sendNotification s fx slug data).state.db.notifications =
        s.db.notifications ++ [mkNotificationRow s.db slug data]) := by
  constructor
  · intro hins
    unfold sendNotification
    split
    · exact ⟨rfl, rfl⟩
    · split
      · exact ⟨rfl, rfl⟩
      · simp [hins]
  · intro hsend
    exact (sendNotification_sends_persisted s fx slug data).resolve_left hsend

/-- Witness for C3, at two concrete inputs: with a throwing insert the
offline publish fails and sends nothing; with a live `"dev-a"` socket
the publish sends, and the final store holds the inserted row. -/
theorem sendNotification_persist_before_delivery_witness :
    ((sendNotification demoOffline fxSendInsertFail "sale-alerts"
          demoData).outcome.success = false ∧
      (sendNotification demoOffline fxSendInsertFail "sale-alerts"
          demoData).effects.sends = []) ∧
    (sendNotification demoOnline fxSendOk "sale-alerts"
        demoData).state.db.notifications =
      demoOnline.db.notifications ++
        [mkNotificationRow demoOnline.db "sale-alerts" demoData] :=
  ⟨(sendNotification_persist_before_delivery demoOffline fxSendInsertFail
      "sale-alerts" demoData).1 rfl,
   (sendNotification_persist_before_delivery demoOnline fxSendOk
      "sale-alerts" demoData).2 (by decide)⟩

/-- A server whose store has no webhook at all. -/
def demoEmpty : Server :=
  { db := { webhooks := [], notifications := [], nextNotifId := 1, now := 0 }
    connections := [], subscriptions := [] }

/-- C10: a publish to a slug with no ownership record fails with
"Webhook not found", leaves the whole state untouched (in particular no
notification row is inserted), performs no delivery, and is mapped to
HTTP 404 by the `POST /w/:slug` route. -/
theorem sendNotification_unknown_slug_404 (s : Server) (fx : SendFx)
    (slug : String) (data : NotificationData)
    (hsel : fx.selectOwnerFails = false)
    (hown : ownerOf s.db slug = none) :
    sendNotification s fx slug data =
      { outcome := { success := false, error := some "Webhook not found" }
        state := s
        effects := { sends := [], forwards := [] } } ∧
      postWStatus (sendNotification s fx slug data).outcome = 404 := by
  have h : sendNotification s fx slug data =
      { outcome := { success := false, error := some "Webhook not found" }
        state := s
        effects := { sends := [], forwards := [] } } := by
    simp [sendNotification, hsel, hown]
  exact ⟨h, by rw [h]; rfl⟩

/-- Witness for C10: publishing to `"sale-alerts"` against the empty
store fails with "Webhook not found", changes nothing, and maps to
404. -/
theorem sendNotification_unknown_slug_404_witness :
    sendNotification demoEmpty fxSendOk "sale-alerts" demoData =
      { outcome := { success := false, error := some "Webhook not found" }
        state := demoEmpty
        effects := { sends := [], forwards := [] } } ∧
      postWStatus (sendNotification demoEmpty fxSendOk "sale-alerts"
        demoData).outcome = 404 :=
  sendNotification_unknown_slug_404 demoEmpty fxSendOk "sale-alerts"
    demoData rfl (by decide)

/-! ### Map lemmas for the registry -/

/-- A deleted key reads back as absent. -/
theorem mapGet_mapDelete {α : Type} (m : List (String × α)) (k : String) :
    mapGet (mapDelete m k) k = none := by
  simp only [mapGet, mapDelete, Option.map_eq_none']
  rw [List.find?_eq_none]
  intro p hp
  have := (List.mem_filter.mp hp).2
  simp_all

/-- Deleting a key twice is the same as deleting it once. -/
theorem mapDelete_idem {α : Type} (m : List (String × α)) (k : String) :
    mapDelete (mapDelete m k) k = mapDelete m k := by
  simp [mapDelete, List.filter_filter]

/-- A successful map lookup exhibits a binding of the list. -/
theorem mapGet_eq_some_mem {α : Type} {m : List (String × α)} {k : String}
    {v : α} (h : mapGet m k = some v) : (k, v) ∈ m := by
  simp only [mapGet] at h
  rcases Option.map_eq_some'.mp h with ⟨p, hp, hv⟩
  have hk : p.1 = k := by simpa using List.find?_some hp
  have hm : p ∈ m := List.mem_of_find?_eq_some hp
  have hpkv : p = (k, v) := by
    cases p
    simp_all
  rwa [hpkv] at hm

/-- Filtering with a predicate that is false on every binding of `k`
makes `k` read back as absent. -/
theorem mapGet_filter_out {α : Type} (m : List (String × α))
    (q : String × α → Bool) (k : String)
    (h : ∀ p : String × α, p.1 = k → q p = false) :
    mapGet (m.filter q) k = none := by
  simp only [mapGet, Option.map_eq_none']
  rw [List.find?_eq_none]
  intro p hp
  have hq := (List.mem_filter.mp hp).2
  intro hk
  have : q p = false := h p (by simpa using hk)
  simp_all

/-- Filtering never resurrects an absent key. -/
theorem mapGet_filter_none {α : Type} (m : List (String × α))
    (q : String × α → Bool) (k : String) (h : mapGet m k = none) :
    mapGet (m.filter q) k = none := by
  simp only [mapGet, Option.map_eq_none'] at h ⊢
  rw [List.find?_eq_none] at h ⊢
  intro p hp
  exact h p (List.mem_filter.mp hp).1

/-- Filtering with a predicate that holds on every binding of `k`
leaves the lookup of `k` unchanged. -/
theorem mapGet_filter_keep {α : Type} (m : List (String × α))
    (q : String × α → Bool) (k : String)
    (h : ∀ p : String × α, p.1 = k → q p = true) :
    mapGet (m.filter q) k = mapGet m k := by
  induction m with
  | nil => rfl
  | cons p m ih =>
      by_cases hk : (p.1 == k) = true
      · have hq : q p = true := h p (by simpa using hk)
        simp [mapGet, List.filter_cons, hq, List.find?, hk]
      · by_cases hq : q p = true
        · simpa [mapGet, List.filter_cons, hq, List.find?, hk] using ih
        · have hq' : q p = false := by simp_all
          have hk' : (p.1 == k) = false := by simp_all
          simpa [mapGet, List.filter_cons, hq', List.find?, hk'] using ih

/-- A filtered-and-rewrapped map (the shape `heartbeatTick` gives to
`connections`) never resurrects an absent key. -/
theorem mapGet_filter_map_none {α : Type} (m : List (String × α))
    (p : String × α → Bool) (g : String × α → α) (k : String)
    (h : mapGet m k = none) :
    mapGet ((m.filter p).map (fun x => (x.1, g x))) k = none := by
  simp only [mapGet, Option.map_eq_none'] at h ⊢
  rw [List.find?_eq_none] at h ⊢
  intro x hx
  rcases List.mem_map.mp hx with ⟨y, hy, rfl⟩
  exact h y (List.mem_filter.mp hy).1

/-- Running `connect` leaves the store untouched. -/
theorem connect_db (s : Server) (d : String) : (connect s d).db = s.db := by
  unfold connect
  split <;> rfl

/-! ### Endpoint disconnection (claim C8) -/

/-- C8: after `connect` followed by `disconnect` of the same device,
the device is gone from the live-endpoint index and from the
subscription map, a publish to a slug it owns sends nothing over any
socket (for every failure profile `fx`), and `disconnect` is
idempotent. -/
theorem connect_disconnect_removes (s : Server) (d slug : String)
    (fx : SendFx) (data : NotificationData)
    (hown : ownerOf s.db slug = some d) :
    mapGet (disconnect (connect s d) d).connections d = none ∧
      mapGet (disconnect (connect s d) d).subscriptions d = none ∧
      (sendNotification (disconnect (connect s d) d) fx slug
        data).effects.sends = [] ∧
      disconnect (disconnect s d) d = disconnect s d := by
  refine ⟨mapGet_mapDelete _ _, mapGet_mapDelete _ _, ?_, ?_⟩
  · have hst : ownerOf (disconnect (connect s d) d).db slug = some d := by
      rw [show (disconnect (connect s d) d).db = (connect s d).db from rfl,
        connect_db]
      exact hown
    have hlive : liveEndpoint (disconnect (connect s d) d) d = none := by
      simp [liveEndpoint, disconnect, mapGet_mapDelete]
    by_cases h1 : fx.selectOwnerFails = true
    · simp [sendNotification, h1]
    · by_cases h2 : fx.insertNotifFails = true
      · simp [sendNotification, h1, h2, hst]
      · by_cases h3 : fx.updateLastUsedFails = true
        · simp [sendNotification, h1, h2, h3, hst]
        · simp [sendNotification, sendLive, h1, h2, h3, hst,
            liveEndpoint_update_db, hlive]
  · simp [disconnect, mapDelete_idem]

/-- Witness for C8: at the concrete owned slug `"sale-alerts"` of
`"dev-a"`, connect-then-disconnect leaves no live endpoint, no
subscriptions, a silent publish, and an idempotent disconnect. -/
theorem connect_disconnect_removes_witness :
    mapGet (disconnect (connect demoOffline "dev-a") "dev-a").connections
        "dev-a" = none ∧
      mapGet (disconnect (connect demoOffline "dev-a") "dev-a").subscriptions
        "dev-a" = none ∧
      (sendNotification (disconnect (connect demoOffline "dev-a") "dev-a")
        fxSendOk "sale-alerts" demoData).effects.sends = [] ∧
      disconnect (disconnect demoOffline "dev-a") "dev-a" =
        disconnect demoOffline "dev-a" :=
  connect_disconnect_removes demoOffline "dev-a" "sale-alerts" fxSendOk
    demoData (by decide)

/-! ### Liveness monitor (claim C9) -/

/-- Two ticks with no pong in between terminate every client: the
first clears every surviving `isAlive`, the second evicts them all. -/
theorem heartbeatTick_twice_connections (s : Server) :
    (heartbeatTick (heartbeatTick s)).connections = [] := by
  simp only [heartbeatTick]
  rw [List.filter_map]
  simp [Function.comp]

/-- C9: an endpoint that acknowledges no probe across two consecutive
heartbeat ticks is evicted — after the two ticks it is gone from the
live-endpoint index and from the subscription map — while a tick on a
device that is already disconnected is a no-op: the device stays
absent and its (absent) subscription entry is untouched. -/
theorem heartbeat_unacked_evicted (s : Server) (d : String) :
    (mapGet s.connections d ≠ none →
      mapGet (heartbeatTick (heartbeatTick s)).connections d = none ∧
        mapGet (heartbeatTick (heartbeatTick s)).subscriptions d = none) ∧
    (mapGet s.connections d = none →
      mapGet (heartbeatTick s).connections d = none ∧
        mapGet (heartbeatTick s).subscriptions d = mapGet s.subscriptions d) := by
  constructor
  · intro hconn
    refine ⟨by rw [heartbeatTick_twice_connections]; rfl, ?_⟩
    obtain ⟨ws, hws⟩ := Option.ne_none_iff_exists'.mp hconn
    have hmem : (d, ws) ∈ s.connections := mapGet_eq_some_mem hws
    by_cases ha : ws.isAlive = true
    · have hmem1 : (d, { ws with isAlive := false }) ∈
          (heartbeatTick s).connections :=
        List.mem_map.mpr ⟨(d, ws),
          List.mem_filter.mpr ⟨hmem, by simpa using ha⟩, rfl⟩
      have hcont : ((evictedKeys (heartbeatTick s).connections).contains d)
          = true := by
        apply List.contains_iff_exists_mem_beq.mpr
        refine ⟨d, ?_, by simp⟩
        exact List.mem_map.mpr ⟨(d, { ws with isAlive := false }),
          List.mem_filter.mpr ⟨hmem1, by simp⟩, rfl⟩
      apply mapGet_filter_out
      intro p hp
      rw [hp, hcont]
      rfl
    · have hcont : ((evictedKeys s.connections).contains d) = true := by
        apply List.contains_iff_exists_mem_beq.mpr
        refine ⟨d, ?_, by simp⟩
        exact List.mem_map.mpr ⟨(d, ws),
          List.mem_filter.mpr ⟨hmem, by simp_all⟩, rfl⟩
      have h1 : mapGet (heartbeatTick s).subscriptions d = none := by
        apply mapGet_filter_out
        intro p hp
        rw [hp, hcont]
        rfl
      exact mapGet_filter_none _ _ _ h1
  · intro hnone
    constructor
    · exact mapGet_filter_map_none _ _ _ _ hnone
    · have hnc : (evictedKeys s.connections).contains d = false := by
        by_contra hc
        have hc' : (evictedKeys s.connections).contains d = true := by
          simp_all
        rcases List.contains_iff_exists_mem_beq.mp hc' with ⟨x, hx, hdx⟩
        rcases List.mem_map.mp hx with ⟨p, hp, rfl⟩
        have hpm : p ∈ s.connections := (List.mem_filter.mp hp).1
        have hfind : s.connections.find? (fun r => r.1 == d) = none := by
          simpa [mapGet, Option.map_eq_none'] using hnone
        have := List.find?_eq_none.mp hfind p hpm
        simp_all
      apply mapGet_filter_keep
      intro p hp
      rw [hp, hnc]
      rfl

/-- Witness for C9: the connected `"dev-a"` of `demoOnline` is fully
evicted by two silent ticks. -/
theorem heartbeat_unacked_evicted_witness :
    mapGet (heartbeatTick (heartbeatTick demoOnline)).connections "dev-a"
        = none ∧
      mapGet (heartbeatTick (heartbeatTick demoOnline)).subscriptions "dev-a"
        = none :=
  (heartbeat_unacked_evicted demoOnline "dev-a").1 (by decide)

end SalesBell
